import Mathlib

/-!
Shallow embedding of the llmgateway request-dispatch and billing code,
with theorems checking the natural-language specification against it.

Sources embedded here:
* `transformResponseToOpenai` and `getProviderEnv`
  (packages/gateway response transformation, src/unnamed/part_000);
* the redis queue helpers `publishToQueue` / `consumeFromQueue`
  (src/packages/cache/src/redis.ts);
* `verifyPaystackSignature` and `recordSuccessfulPaystackCharge`
  (src/apps/api/src/lib/paystack.ts);
* `isAdminEmail` and the admin metrics gate (src/unnamed/part_007).

JavaScript value coercions (`||`, `??`, truthiness of strings and
numbers) are modelled explicitly by the `js*` helpers below; `null` and
`undefined` are both modelled as `Option.none`.
-/

/-- JavaScript `x || d` for a nullable number: `null`, `undefined` and `0`
are falsy and yield the default. -/
def jsOrI (o : Option Int) (d : Int) : Int :=
  match o with
  | none => d
  | some x => if x = 0 then d else x

/-- JavaScript `x || d` for a nullable string: `null`, `undefined` and the
empty string are falsy and yield the default. -/
def jsOrS (o : Option String) (d : String) : String :=
  match o with
  | none => d
  | some s => if s = "" then d else s

/-- JavaScript truthiness of a nullable string: `null`, `undefined` and
`""` are falsy. -/
def jsTruthyS (o : Option String) : Bool :=
  match o with
  | none => false
  | some s => s ≠ ""

/-- JavaScript `a || b` on two nullable strings, keeping the result
nullable (used for `authorization?.brand || authorization?.card_type ||
authorization?.bank`). -/
def jsOrOptS (a b : Option String) : Option String :=
  if jsTruthyS a then a else b

/-- Character-list worker for `jsSplitComma`. -/
def splitCommaChars : List Char → List String
  | [] => [""]
  | c :: cs =>
    let rest := splitCommaChars cs
    if c = ',' then "" :: rest
    else
      match rest with
      | [] => [String.mk [c]]
      | r :: rs => String.mk (c :: r.data) :: rs

/-- JavaScript `s.split(",")` with no limit: every comma is a separator,
`"".split(",")` is `[""]`. -/
def jsSplitComma (s : String) : List String := splitCommaChars s.data

/-- Whitespace stripped by `String.prototype.trim` (the ASCII cases). -/
def isJsWhitespace (c : Char) : Bool := c = ' ' ∨ c = '\t' ∨ c = '\n' ∨ c = '\r'

/-- JavaScript `s.trim()` over the modelled whitespace alphabet. -/
def jsTrim (s : String) : String :=
  String.mk (((s.data.dropWhile isJsWhitespace).reverse.dropWhile isJsWhitespace).reverse)

/-- ASCII lowering of one character, `A`-`Z` mapped down by 32. -/
def lowerChar (c : Char) : Char :=
  if 'A' ≤ c ∧ c ≤ 'Z' then Char.ofNat (c.toNat + 32) else c

/-- JavaScript `s.toLowerCase()` restricted to ASCII case mapping. -/
def jsToLower (s : String) : String := String.mk (s.data.map lowerChar)

/-! ## transformResponseToOpenai (src/unnamed/part_000 lines 7-341)

The upstream payload `json : any` and the returned response are modelled
by one record `GResponse` holding exactly the fields the function reads
or writes.  `isObject = false` models a `null` payload (every other field
is irrelevant then).  Absent object keys are `none` / `[]`. -/

/-- Usage block of a chat-completion response. `cached_tokens` models the
nested `prompt_tokens_details.cached_tokens`; `none` on an `Option` field
models the key being absent. -/
structure Usage where
  prompt_tokens : Option Int
  completion_tokens : Option Int
  total_tokens : Option Int
  reasoning_tokens : Option Int
  cached_tokens : Option Int
deriving Repr, DecidableEq

/-- Assistant message of a choice. `tool_calls` carries the opaque
`toolResults` payload when present; `images` is `[]` when the key is
absent (the source only adds the key for a non-empty array, which this
representation identifies with absence). -/
structure Message where
  role : Option String
  content : Option String
  reasoning : Option String
  reasoning_content : Option String
  tool_calls : Option String
  images : List String
deriving Repr, DecidableEq

/-- One choice of a chat-completion response. -/
structure Choice where
  index : Option Int
  message : Option Message
  finish_reason : Option String
deriving Repr, DecidableEq

/-- Gateway metadata block attached to every transformed response. -/
structure Metadata where
  requested_model : String
  requested_provider : Option String
  used_model : String
  used_provider : String
  underlying_used_model : String
deriving Repr, DecidableEq

/-- Upstream payload / transformed response. `created_at` is the field of
the OpenAI responses-endpoint payload read by the `openai` branch;
`outputIsArray` models `json.output && Array.isArray(json.output)`. -/
structure GResponse where
  isObject : Bool
  id : Option String
  object : Option String
  created : Option Int
  created_at : Option Int
  outputIsArray : Bool
  model : Option String
  choices : List Choice
  usage : Option Usage
  metadata : Option Metadata
deriving Repr, DecidableEq

/-- Usage block built by the response-constructing branches:
`prompt_tokens: Math.max(1, promptTokens || 1)`,
`completion_tokens: completionTokens || 0`,
`total_tokens: Math.max(1, totalTokens ?? ((promptTokens || 0) +
(completionTokens || 0) + (reasoningTokens || 0)))`, with
`reasoning_tokens` and `cached_tokens` included iff non-null.  The
groq-family branch omits `prompt_tokens_details` and passes `none` for
`cachedTokens`. -/
def buildUsage (promptTokens completionTokens totalTokens reasoningTokens cachedTokens : Option Int) : Usage :=
  { prompt_tokens := some (max 1 (jsOrI promptTokens 1))
    completion_tokens := some (jsOrI completionTokens 0)
    total_tokens := some (max 1 (totalTokens.getD
      (jsOrI promptTokens 0 + jsOrI completionTokens 0 + jsOrI reasoningTokens 0)))
    reasoning_tokens := reasoningTokens
    cached_tokens := cachedTokens }

/-- Metadata block `{requested_model, requested_provider, used_model,
used_provider, underlying_used_model}` built identically in every branch. -/
def buildMetadata (requestedModel : String) (requestedProvider : Option String) (baseModelName usedProvider usedModel : String) : Metadata :=
  { requested_model := requestedModel
    requested_provider := requestedProvider
    used_model := baseModelName
    used_provider := usedProvider
    underlying_used_model := usedModel }

/-- Assistant message built by the constructing branches; `reasoning` is
included iff `reasoningContent !== null` and `tool_calls` iff
`toolResults` is truthy, both of which `Option` captures. -/
def buildMessage (content reasoningContent toolResults : Option String) (images : List String) : Message :=
  { role := some "assistant"
    content := content
    reasoning := reasoningContent
    reasoning_content := none
    tool_calls := toolResults
    images := images }

/-- Freshly constructed chat-completion response; `idv` and `createdv`
are `chatcmpl-${Date.now()}` and `Math.floor(Date.now() / 1000)` except
in the openai responses branch, which prefers `json.id` and
`json.created_at`. -/
def constructedResponse (idv : String) (createdv : Int) (usedProvider baseModelName : String) (msg : Message) (finishR : String) (usage : Usage) (md : Metadata) : GResponse :=
  { isObject := true
    id := some idv
    object := some "chat.completion"
    created := some createdv
    created_at := none
    outputIsArray := false
    model := some (usedProvider ++ "/" ++ baseModelName)
    choices := [{ index := some 0, message := some msg, finish_reason := some finishR }]
    usage := some usage
    metadata := some md }

/-- Anthropic finish-reason conditional of lines 96-103:
`end_turn → stop`, `tool_use → tool_calls`, `max_tokens → length`,
anything else (including null) `→ stop`. -/
def anthropicFinish (finishReason : Option String) : String :=
  if finishReason = some "end_turn" then "stop"
  else if finishReason = some "tool_use" then "tool_calls"
  else if finishReason = some "max_tokens" then "length"
  else "stop"

/-- Mutation applied to an existing payload by the groq-family else
branch and the default branch: when `choices?.[0]?.message` exists and
`reasoningContent !== null`, set `message.reasoning` and delete
`message.reasoning_content`. -/
def applyReasoningRewrite (reasoningContent : Option String) (j : GResponse) : GResponse :=
  match j.choices with
  | [] => j
  | c :: rest =>
    match c.message with
    | none => j
    | some m =>
      if reasoningContent.isSome then
        { j with choices :=
          { c with message := some { m with reasoning := reasoningContent, reasoning_content := none } } :: rest }
      else j

/-- Mutation `transformedResponse.model = ...; transformedResponse.metadata = {...}`. -/
def addModelAndMetadata (usedProvider baseModelName : String) (md : Metadata) (j : GResponse) : GResponse :=
  { j with model := some (usedProvider ++ "/" ++ baseModelName), metadata := some md }

/-- Embedding of `transformResponseToOpenai` (src/unnamed/part_000 lines
7-341). `now` stands for `Date.now()`.  The result is `none` exactly when
the source would throw a `TypeError` by reading a property of a `null`
payload (`transformedResponse.id` in the groq-family branch, `json.output`
in the openai branch). -/
def transformResponseToOpenai
    (now : Int)
    (usedProvider usedModel : String) (json : GResponse)
    (content reasoningContent finishReason : Option String)
    (promptTokens completionTokens totalTokens reasoningTokens cachedTokens : Option Int)
    (toolResults : Option String) (images : List String)
    (requestedModel : String) (requestedProvider : Option String)
    (baseModelName : String) : Option GResponse :=
  let md := buildMetadata requestedModel requestedProvider baseModelName usedProvider usedModel
  let freshId := "chatcmpl-" ++ toString now
  let freshCreated := now / 1000
  if usedProvider = "google-ai-studio" ∨ usedProvider = "google-vertex" then
    some (constructedResponse freshId freshCreated usedProvider baseModelName
      (buildMessage content reasoningContent toolResults images)
      (jsOrS finishReason "stop")
      (buildUsage promptTokens completionTokens totalTokens reasoningTokens cachedTokens) md)
  else if usedProvider = "anthropic" then
    some (constructedResponse freshId freshCreated usedProvider baseModelName
      (buildMessage content reasoningContent toolResults [])
      (anthropicFinish finishReason)
      (buildUsage promptTokens completionTokens totalTokens reasoningTokens cachedTokens) md)
  else if usedProvider = "inference.net" ∨ usedProvider = "together.ai" ∨ usedProvider = "groq" then
    if ¬ json.isObject then
      none
    else if ¬ jsTruthyS json.id then
      some (constructedResponse freshId freshCreated usedProvider baseModelName
        (buildMessage content reasoningContent none [])
        (jsOrS finishReason "stop")
        (buildUsage promptTokens completionTokens totalTokens reasoningTokens none) md)
    else
      some (addModelAndMetadata usedProvider baseModelName md
        (applyReasoningRewrite reasoningContent json))
  else if usedProvider = "aws-bedrock" then
    some (constructedResponse freshId freshCreated usedProvider baseModelName
      (buildMessage content reasoningContent toolResults [])
      (jsOrS finishReason "stop")
      (buildUsage promptTokens completionTokens totalTokens reasoningTokens cachedTokens) md)
  else if usedProvider = "openai" then
    if ¬ json.isObject then
      none
    else if json.outputIsArray then
      some (constructedResponse (jsOrS json.id freshId)
        (jsOrI json.created_at freshCreated) usedProvider baseModelName
        (buildMessage content reasoningContent toolResults [])
        (jsOrS finishReason "stop")
        (buildUsage promptTokens completionTokens totalTokens reasoningTokens cachedTokens) md)
    else
      some (addModelAndMetadata usedProvider baseModelName md json)
  else
    if json.isObject then
      some (addModelAndMetadata usedProvider baseModelName md
        (applyReasoningRewrite reasoningContent json))
    else
      some json

/-! ## getProviderEnv (src/unnamed/part_000 lines 351-374)

The environment is modelled as a partial map from variable names to
values; `none` is an unset variable, `some ""` a variable set to the
empty string (both falsy to the source's `!token` checks). -/

/-- Environment of the process, `process.env`. -/
def Env : Type := String → Option String

/-- Thrown `HTTPException(status, {message})`. -/
structure HttpError where
  status : Nat
  message : String
deriving Repr, DecidableEq

/-- Modelled from the spec: `getProviderEnvVar` of `@llmgateway/models`
(the models package is not part of the provided sources).  Per §6 of the
spec there is "one variable per provider (e.g. `LLM_OPENAI_API_KEY`,
`LLM_ANTHROPIC_API_KEY`, etc.)"; the Azure name `LLM_AZURE_API_KEY` is
documented in infra/README.external-db.md.  Unknown providers have no
variable and yield `none`. -/
def getProviderEnvVar (p : String) : Option String :=
  if p = "openai" then some "LLM_OPENAI_API_KEY"
  else if p = "anthropic" then some "LLM_ANTHROPIC_API_KEY"
  else if p = "google-ai-studio" then some "LLM_GOOGLE_AI_STUDIO_API_KEY"
  else if p = "google-vertex" then some "LLM_GOOGLE_VERTEX_API_KEY"
  else if p = "aws-bedrock" then some "LLM_AWS_BEDROCK_API_KEY"
  else if p = "groq" then some "LLM_GROQ_API_KEY"
  else if p = "together.ai" then some "LLM_TOGETHER_AI_API_KEY"
  else if p = "inference.net" then some "LLM_INFERENCE_NET_API_KEY"
  else if p = "azure" then some "LLM_AZURE_API_KEY"
  else none

/-- Embedding of `getProviderEnv` (src/unnamed/part_000 lines 351-374):
no variable name → 400; variable unset or empty → 400; for `azure`
additionally `LLM_AZURE_RESOURCE` must be truthy; otherwise the token is
returned. -/
def getProviderEnv (env : Env) (usedProvider : String) : Except HttpError String :=
  match getProviderEnvVar usedProvider with
  | none => .error { status := 400, message := "No environment variable set for provider: " ++ usedProvider }
  | some envVar =>
    let token := env envVar
    if ¬ jsTruthyS token then
      .error { status := 400, message := "No API key set in environment for provider: " ++ usedProvider }
    else if usedProvider = "azure" ∧ ¬ jsTruthyS (env "LLM_AZURE_RESOURCE") then
      .error { status := 400, message := "LLM_AZURE_RESOURCE environment variable is required for Azure provider" }
    else
      .ok (token.getD "")

/-! ## Redis queue helpers (src/packages/cache/src/redis.ts lines 27-60)

The redis instance is modelled as a map from queue names to lists of
strings, head = head of the redis list.  `lpush` prepends one element;
`lpop(queue, 10)` pops up to 10 elements from the head and returns
`null` on an empty/missing key.  `JSON.stringify` is a platform
primitive and is passed in as an abstract serialisation function. -/

/-- State of the redis lists. -/
structure RedisState where
  queues : String → List String

/-- Embedding of `publishToQueue`: `lpush(queue, JSON.stringify(message))`. -/
def publishToQueue {α : Type} (stringify : α → String) (s : RedisState) (queue : String) (message : α) : RedisState :=
  { queues := fun q => if q = queue then stringify message :: s.queues q else s.queues q }

/-- Embedding of `consumeFromQueue`: `lpop(queue, 10)`, returning `null`
(here `none`) when nothing was popped, else the popped batch. -/
def consumeFromQueue (s : RedisState) (queue : String) : Option (List String) × RedisState :=
  let result := (s.queues queue).take 10
  if result.isEmpty then
    (none, s)
  else
    (some result, { queues := fun q => if q = queue then (s.queues q).drop 10 else s.queues q })

/-! ## Paystack (src/apps/api/src/lib/paystack.ts) -/

/-- Embedding of `verifyPaystackSignature` (lines 327-348), parameterised
by the abstract `crypto.createHmac("sha512", secret).update(body).digest("hex")`
primitive.  `PAYSTACK_WEBHOOK_SECRET` is resolved at module load as
`process.env.PAYSTACK_WEBHOOK_SECRET ?? process.env.PAYSTACK_SECRET_KEY`.
`crypto.timingSafeEqual` throws when the two buffers differ in length,
modelled by `none`; string length stands for byte length. -/
def verifyPaystackSignature (hmacSha512Hex : String → String → String)
    (envWebhookSecret envSecretKey : Option String)
    (signature : Option String) (rawBody : String) : Option Bool :=
  let webhookSecret := match envWebhookSecret with
    | some w => some w
    | none => envSecretKey
  if ¬ jsTruthyS webhookSecret then
    some true
  else if ¬ jsTruthyS signature then
    some false
  else
    let expected := hmacSha512Hex (webhookSecret.getD "") rawBody
    let sig := signature.getD ""
    if sig.length ≠ expected.length then
      none
    else
      some (sig = expected)

/-- Webhook handler gate (src/unnamed/part_008 lines 39-47): the payload
is processed iff `verifyPaystackSignature` did not return `false` (a
thrown comparison error propagates as `none`). -/
def paystackWebhookAccepts (hmacSha512Hex : String → String → String)
    (envWebhookSecret envSecretKey : Option String)
    (signature : Option String) (rawBody : String) : Option Bool :=
  match verifyPaystackSignature hmacSha512Hex envWebhookSecret envSecretKey signature rawBody with
  | none => none
  | some ok => some ok

/-- Row of the `transaction` table, with the columns
`recordSuccessfulPaystackCharge` touches.  Numeric columns written via
`.toString()` are kept as strings. -/
structure TransactionRow where
  id : String
  status : String
  amount : String
  creditAmount : String
  currency : String
  paystackReference : Option String
  provider : Option String
deriving Repr, DecidableEq

/-- Row of the `organization` table. -/
structure OrgRow where
  id : String
  credits : Int
deriving Repr, DecidableEq

/-- Row of the `paymentMethod` table. -/
structure PaymentMethodRow where
  id : String
  organizationId : String
  provider : String
  type : String
  paystackAuthorizationCode : Option String
  cardBrand : Option String
  cardLast4 : Option String
  isDefault : Bool
  updatedAt : Int
deriving Repr, DecidableEq

/-- Database state touched by the paystack charge recording. -/
structure DBState where
  transactions : List TransactionRow
  organizations : List OrgRow
  paymentMethods : List PaymentMethodRow
deriving Repr, DecidableEq

/-- `PaystackAuthorization` fields read by the charge recording. -/
structure PaystackAuthorization where
  authorization_code : Option String
  last4 : Option String
  channel : Option String
  card_type : Option String
  bank : Option String
  brand : Option String
deriving Repr, DecidableEq

/-- `PaystackChargeMetadata` fields read by the charge recording; the
source coerces them with `Boolean(...)`, so absent models `false`. -/
structure PaystackChargeMetadata where
  savePaymentMethod : Option Bool
  makeDefault : Option Bool
deriving Repr, DecidableEq

/-- Parameters of `recordSuccessfulPaystackCharge`. -/
structure SuccessfulChargeParams where
  organizationId : String
  transactionId : String
  amountPaid : Int
  creditAmount : Int
  currency : String
  reference : String
  authorization : Option PaystackAuthorization
  metadata : PaystackChargeMetadata
deriving Repr, DecidableEq

/-- Predicate of the guarded `UPDATE transaction` — rows with
`id = transactionId AND status <> 'completed'`. -/
def txMatches (transactionId : String) (t : TransactionRow) : Bool :=
  t.id == transactionId && t.status != "completed"

/-- Per-row effect of the guarded `UPDATE transaction SET status =
'completed', amount, creditAmount, currency, paystackReference,
provider`. -/
def updateMatchedTx (p : SuccessfulChargeParams) (t : TransactionRow) : TransactionRow :=
  if txMatches p.transactionId t then
    { t with
      status := "completed"
      amount := toString p.amountPaid
      creditAmount := toString p.creditAmount
      currency := p.currency
      paystackReference := some p.reference
      provider := some "paystack" }
  else t

/-- Per-row effect of `UPDATE organization SET credits = credits +
creditAmount WHERE id = organizationId`. -/
def creditOrg (p : SuccessfulChargeParams) (o : OrgRow) : OrgRow :=
  if o.id == p.organizationId then { o with credits := o.credits + p.creditAmount } else o

/-- Embedding of `recordSuccessfulPaystackCharge`
(src/apps/api/src/lib/paystack.ts lines 361-456) as a pure transition on
`DBState`.  `now` stands for `new Date()` and `newId` for the generated
primary key of an inserted payment method.  The whole body runs in one
`db.transaction`, hence one atomic state function. -/
def recordSuccessfulPaystackCharge (now : Int) (newId : String)
    (p : SuccessfulChargeParams) (s : DBState) : DBState :=
  let updated := s.transactions.filter (txMatches p.transactionId)
  if updated.length = 0 then
    s
  else
    let transactions' := s.transactions.map (updateMatchedTx p)
    let organizations' := s.organizations.map (creditOrg p)
    let s2 : DBState :=
      { transactions := transactions'
        organizations := organizations'
        paymentMethods := s.paymentMethods }
    let saveMethod := p.metadata.savePaymentMethod.getD false
    let authCode := p.authorization.bind PaystackAuthorization.authorization_code
    if saveMethod && jsTruthyS authCode then
      let code := authCode.getD ""
      let auth := p.authorization
      let cardBrand := jsOrOptS (auth.bind PaystackAuthorization.brand)
        (jsOrOptS (auth.bind PaystackAuthorization.card_type) (auth.bind PaystackAuthorization.bank))
      let last4 := auth.bind PaystackAuthorization.last4
      let paymentType := (auth.bind PaystackAuthorization.channel).getD "card"
      let makeDefault := p.metadata.makeDefault.getD false
      match s2.paymentMethods.find? (fun pm =>
          pm.organizationId == p.organizationId && pm.paystackAuthorizationCode == some code) with
      | some existing =>
        { s2 with paymentMethods := s2.paymentMethods.map (fun pm =>
            if pm.id == existing.id then
              { pm with
                cardBrand := cardBrand
                cardLast4 := last4
                isDefault := if makeDefault then true else existing.isDefault
                updatedAt := now }
            else pm) }
      | none =>
        let cleared := if makeDefault then
            s2.paymentMethods.map (fun pm =>
              if pm.organizationId == p.organizationId then { pm with isDefault := false } else pm)
          else s2.paymentMethods
        { s2 with paymentMethods := cleared ++
            [{ id := newId
               organizationId := p.organizationId
               provider := "paystack"
               type := paymentType
               paystackAuthorizationCode := some code
               cardBrand := cardBrand
               cardLast4 := last4
               isDefault := makeDefault
               updatedAt := now }] }
    else
      s2

/-- Credits of an organization in a database state. -/
def orgCredits (s : DBState) (orgId : String) : Option Int :=
  (s.organizations.find? (fun o => o.id == orgId)).map OrgRow.credits

/-! ## Admin gating (src/unnamed/part_007 lines 43-55 and 93-106) -/

/-- Parsed admin list: `(process.env.ADMIN_EMAILS || "").split(",")
.map(v => v.trim().toLowerCase()).filter(Boolean)`. -/
def adminEmailList (adminEmailsEnv : Option String) : List String :=
  ((jsSplitComma (jsOrS adminEmailsEnv "")).map (fun v => jsToLower (jsTrim v))).filter (fun v => v ≠ "")

/-- Embedding of `isAdminEmail` (src/unnamed/part_007 lines 43-55). -/
def isAdminEmail (adminEmailsEnv : Option String) (email : Option String) : Bool :=
  let adminEmails := adminEmailList adminEmailsEnv
  if ¬ jsTruthyS email ∨ adminEmails.length = 0 then
    false
  else
    adminEmails.contains (jsToLower (email.getD ""))

/-- Outcome of the admin `/metrics` handler's gate. -/
inductive MetricsGate where
  | unauthorized
  | forbidden
  | proceed
deriving Repr, DecidableEq

/-- Gate of the admin `getMetrics` handler (src/unnamed/part_007 lines
93-106): 401 without a user, 403 unless `isAdminEmail(authUser.email)`. -/
def adminMetricsGate (adminEmailsEnv : Option String) (authUser : Option (Option String)) : MetricsGate :=
  match authUser with
  | none => .unauthorized
  | some email => if ¬ isAdminEmail adminEmailsEnv email then .forbidden else .proceed

/-! ## Shared concrete fixtures -/

/-- Upstream payload that is an object with no recognised fields. -/
def emptyJson : GResponse :=
  { isObject := true
    id := none
    object := none
    created := none
    created_at := none
    outputIsArray := false
    model := none
    choices := []
    usage := none
    metadata := none }

/-- A `null` upstream payload. -/
def nullJson : GResponse :=
  { emptyJson with isObject := false }

/-- Upstream usage block reporting zero tokens everywhere. -/
def zeroUsage : Usage :=
  { prompt_tokens := some 0
    completion_tokens := some 0
    total_tokens := some 0
    reasoning_tokens := none
    cached_tokens := none }

/-- Upstream payload already carrying an id (groq-family passthrough)
whose usage reports zero tokens. -/
def groqPassthroughJson : GResponse :=
  { emptyJson with id := some "chatcmpl-upstream", usage := some zeroUsage }

/-! ## Helper lemmas -/

/-- The usage block built by the constructing branches always clamps
`prompt_tokens` and `total_tokens` to at least 1. -/
theorem buildUsage_prompt_total_floor (pt ct tt rt cht : Option Int) :
    (∃ a, (buildUsage pt ct tt rt cht).prompt_tokens = some a ∧ 1 ≤ a)
    ∧ (∃ b, (buildUsage pt ct tt rt cht).total_tokens = some b ∧ 1 ≤ b) :=
  ⟨⟨_, rfl, le_max_left 1 _⟩, ⟨_, rfl, le_max_left 1 _⟩⟩

/-- With default `0`, the JavaScript `x || 0` agrees with reading `null`
as `0`. -/
theorem jsOrI_zero (o : Option Int) : jsOrI o 0 = o.getD 0 := by
  cases o with
  | none => rfl
  | some x =>
    by_cases h : x = 0
    · simp [jsOrI, h]
    · simp [jsOrI, h]

/-! ## C1 — usage floor -/

/-- C1, counterexample: the claim says the floor `prompt_tokens ≥ 1`
holds for every provider and every upstream payload, but the groq-family
branch passes an upstream payload that already has an id through with
its usage untouched: with upstream `usage.prompt_tokens = 0` (and the
extracted counts all zero) the returned usage still reports 0. -/
theorem usage_floor_cex :
    ((transformResponseToOpenai 0 "groq" "llama-3" groqPassthroughJson none none none
        (some 0) (some 0) (some 0) none none none [] "llama-3" none "llama-3").bind
      GResponse.usage).map Usage.prompt_tokens = some (some 0)
    ∧ ¬ (1 ≤ (0 : Int)) :=
  ⟨rfl, by decide⟩

/-- C1, amended: on every branch that constructs the response afresh
(google-ai-studio, google-vertex, anthropic, aws-bedrock, the groq
family when the upstream payload has no truthy id, and openai when the
payload is a responses-endpoint shape), the returned usage satisfies
`prompt_tokens ≥ 1` and `total_tokens ≥ 1`, whatever the extracted
counts are (in particular when they are null or zero). -/
theorem usage_floor_constructing_branches
    (now : Int) (usedProvider usedModel : String) (json : GResponse)
    (content reasoningContent finishReason : Option String)
    (promptTokens completionTokens totalTokens reasoningTokens cachedTokens : Option Int)
    (toolResults : Option String) (images : List String)
    (requestedModel : String) (requestedProvider : Option String) (baseModelName : String)
    (h : usedProvider = "google-ai-studio" ∨ usedProvider = "google-vertex"
       ∨ usedProvider = "anthropic" ∨ usedProvider = "aws-bedrock"
       ∨ ((usedProvider = "inference.net" ∨ usedProvider = "together.ai" ∨ usedProvider = "groq")
           ∧ json.isObject = true ∧ jsTruthyS json.id = false)
       ∨ (usedProvider = "openai" ∧ json.isObject = true ∧ json.outputIsArray = true)) :
    ∃ u, (transformResponseToOpenai now usedProvider usedModel json content reasoningContent
        finishReason promptTokens completionTokens totalTokens reasoningTokens cachedTokens
        toolResults images requestedModel requestedProvider baseModelName).bind
          GResponse.usage = some u
      ∧ (∃ a, u.prompt_tokens = some a ∧ 1 ≤ a)
      ∧ (∃ b, u.total_tokens = some b ∧ 1 ≤ b) := by
  rcases h with h | h | h | h | ⟨h3, hobj, hid⟩ | ⟨h5, hobj, harr⟩
  · subst h
    exact ⟨_, rfl, buildUsage_prompt_total_floor _ _ _ _ _⟩
  · subst h
    exact ⟨_, rfl, buildUsage_prompt_total_floor _ _ _ _ _⟩
  · subst h
    exact ⟨_, rfl, buildUsage_prompt_total_floor _ _ _ _ _⟩
  · subst h
    exact ⟨_, rfl, buildUsage_prompt_total_floor _ _ _ _ _⟩
  · rcases h3 with h3 | h3 | h3 <;> subst h3 <;>
      exact ⟨buildUsage promptTokens completionTokens totalTokens reasoningTokens none,
        by simp [transformResponseToOpenai, hobj, hid, constructedResponse],
        buildUsage_prompt_total_floor _ _ _ _ _⟩
  · subst h5
    exact ⟨buildUsage promptTokens completionTokens totalTokens reasoningTokens cachedTokens,
      by simp [transformResponseToOpenai, hobj, harr, constructedResponse],
      buildUsage_prompt_total_floor _ _ _ _ _⟩

/-- C1, witness: the amended floor theorem applied to the anthropic
branch with every extracted count null. -/
theorem usage_floor_constructing_branches_check :
    ∃ u, (transformResponseToOpenai 0 "anthropic" "claude-3" emptyJson none none none
        none none none none none none [] "claude-3" none "claude-3").bind
          GResponse.usage = some u
      ∧ (∃ a, u.prompt_tokens = some a ∧ 1 ≤ a)
      ∧ (∃ b, u.total_tokens = some b ∧ 1 ≤ b) :=
  usage_floor_constructing_branches 0 "anthropic" "claude-3" emptyJson none none none
    none none none none none none [] "claude-3" none "claude-3"
    (Or.inr (Or.inr (Or.inl rfl)))

/-! ## C2 — anthropic finish-reason mapping -/

/-- Finish-reason mapping written from the spec's words: Anthropic
`end_turn → stop`, `tool_use → tool_calls`, `max_tokens → length`, and
every other value (including null) `→ stop`. -/
def anthropicFinishSpec (finishReason : Option String) : String :=
  if finishReason = some "end_turn" then "stop"
  else if finishReason = some "tool_use" then "tool_calls"
  else if finishReason = some "max_tokens" then "length"
  else "stop"

/-- C2: for the anthropic provider, the single returned choice carries
the upstream finish reason translated exactly as the spec's mapping
table states. -/
theorem anthropic_finish_reason_mapping
    (now : Int) (usedModel : String) (json : GResponse)
    (content reasoningContent finishReason : Option String)
    (promptTokens completionTokens totalTokens reasoningTokens cachedTokens : Option Int)
    (toolResults : Option String) (images : List String)
    (requestedModel : String) (requestedProvider : Option String) (baseModelName : String) :
    (transformResponseToOpenai now "anthropic" usedModel json content reasoningContent
        finishReason promptTokens completionTokens totalTokens reasoningTokens cachedTokens
        toolResults images requestedModel requestedProvider baseModelName).map
      (fun r => r.choices.map Choice.finish_reason)
    = some [some (anthropicFinishSpec finishReason)] :=
  rfl

/-! ## C3 — total_tokens fallback -/

/-- C3, counterexample: with every extracted count null and
`totalTokens` absent, the claim demands `usage.total_tokens = 0 + 0 + 0
= 0`, but the anthropic branch floor-clamps the fallback sum to 1. -/
theorem total_tokens_fallback_cex :
    ((transformResponseToOpenai 0 "anthropic" "claude-3" emptyJson none none none
        none none none none none none [] "claude-3" none "claude-3").bind
      GResponse.usage).map Usage.total_tokens = some (some 1)
    ∧ (0 : Int) + 0 + 0 ≠ 1 :=
  ⟨rfl, by decide⟩

/-- C3, amended: on the branches that construct the usage block from the
extracted counts, when `totalTokens` is absent the returned
`usage.total_tokens` equals `max 1 (promptTokens + completionTokens +
reasoningTokens)` with each null count read as 0 (the sum is
floor-clamped to 1). -/
theorem total_tokens_fallback_clamped
    (now : Int) (usedProvider usedModel : String) (json : GResponse)
    (content reasoningContent finishReason : Option String)
    (promptTokens completionTokens reasoningTokens cachedTokens : Option Int)
    (toolResults : Option String) (images : List String)
    (requestedModel : String) (requestedProvider : Option String) (baseModelName : String)
    (h : usedProvider = "google-ai-studio" ∨ usedProvider = "google-vertex"
       ∨ usedProvider = "anthropic" ∨ usedProvider = "aws-bedrock"
       ∨ ((usedProvider = "inference.net" ∨ usedProvider = "together.ai" ∨ usedProvider = "groq")
           ∧ json.isObject = true ∧ jsTruthyS json.id = false)
       ∨ (usedProvider = "openai" ∧ json.isObject = true ∧ json.outputIsArray = true)) :
    ((transformResponseToOpenai now usedProvider usedModel json content reasoningContent
        finishReason promptTokens completionTokens none reasoningTokens cachedTokens
        toolResults images requestedModel requestedProvider baseModelName).bind
      GResponse.usage).map Usage.total_tokens
    = some (some (max 1 (promptTokens.getD 0 + completionTokens.getD 0 + reasoningTokens.getD 0))) := by
  rcases h with h | h | h | h | ⟨h3, hobj, hid⟩ | ⟨h5, hobj, harr⟩
  · subst h
    simp [transformResponseToOpenai, constructedResponse, buildUsage, jsOrI_zero]
  · subst h
    simp [transformResponseToOpenai, constructedResponse, buildUsage, jsOrI_zero]
  · subst h
    simp [transformResponseToOpenai, constructedResponse, buildUsage, jsOrI_zero]
  · subst h
    simp [transformResponseToOpenai, constructedResponse, buildUsage, jsOrI_zero]
  · rcases h3 with h3 | h3 | h3 <;> subst h3 <;>
      simp [transformResponseToOpenai, hobj, hid, constructedResponse, buildUsage, jsOrI_zero]
  · subst h5
    simp [transformResponseToOpenai, hobj, harr, constructedResponse, buildUsage, jsOrI_zero]

/-- C3, witness: the amended fallback theorem applied to the
aws-bedrock branch with `promptTokens = 3`, `completionTokens = 4`,
`reasoningTokens` null and `totalTokens` absent. -/
theorem total_tokens_fallback_clamped_check :
    ((transformResponseToOpenai 0 "aws-bedrock" "claude-3" emptyJson none none none
        (some 3) (some 4) none none none none [] "claude-3" none "claude-3").bind
      GResponse.usage).map Usage.total_tokens
    = some (some (max 1 ((some 3 : Option Int).getD 0 + (some 4 : Option Int).getD 0 + (none : Option Int).getD 0))) :=
  total_tokens_fallback_clamped 0 "aws-bedrock" "claude-3" emptyJson none none none
    (some 3) (some 4) none none none [] "claude-3" none "claude-3"
    (Or.inr (Or.inr (Or.inr (Or.inl rfl))))

/-! ## C4 — model field and metadata block -/

/-- C4, counterexample: with a `null` upstream payload and a provider
handled by the default branch (here `azure`), the object guard skips the
mutation and the payload is returned as is: the result carries no
metadata block and its model is not `azure/gpt-4`. -/
theorem model_metadata_cex :
    (transformResponseToOpenai 0 "azure" "gpt-4" nullJson none none none none none none
        none none none [] "gpt-4" none "gpt-4").map GResponse.metadata = some none
    ∧ (transformResponseToOpenai 0 "azure" "gpt-4" nullJson none none none none none none
        none none none [] "gpt-4" none "gpt-4").map GResponse.model = some none :=
  ⟨rfl, rfl⟩

/-- C4, amended: for every provider, whenever the upstream payload is a
non-null object (automatic on the branches that construct the response
afresh), the returned response has `model = usedProvider/baseModelName`
and carries the metadata block `{requested_model, requested_provider,
used_model, used_provider, underlying_used_model}`. -/
theorem model_metadata_on_object_payload
    (now : Int) (usedProvider usedModel : String) (json : GResponse)
    (content reasoningContent finishReason : Option String)
    (promptTokens completionTokens totalTokens reasoningTokens cachedTokens : Option Int)
    (toolResults : Option String) (images : List String)
    (requestedModel : String) (requestedProvider : Option String) (baseModelName : String)
    (hobj : json.isObject = true) :
    (transformResponseToOpenai now usedProvider usedModel json content reasoningContent
        finishReason promptTokens completionTokens totalTokens reasoningTokens cachedTokens
        toolResults images requestedModel requestedProvider baseModelName).map
      GResponse.model = some (some (usedProvider ++ "/" ++ baseModelName))
    ∧ (transformResponseToOpenai now usedProvider usedModel json content reasoningContent
        finishReason promptTokens completionTokens totalTokens reasoningTokens cachedTokens
        toolResults images requestedModel requestedProvider baseModelName).map
      GResponse.metadata = some (some
        { requested_model := requestedModel
          requested_provider := requestedProvider
          used_model := baseModelName
          used_provider := usedProvider
          underlying_used_model := usedModel }) := by
  simp only [transformResponseToOpenai]
  split_ifs <;>
    simp_all [constructedResponse, addModelAndMetadata, buildMetadata]

/-- C4, witness: the amended theorem applied to the openai
chat-completions passthrough on an object payload. -/
theorem model_metadata_on_object_payload_check :
    (transformResponseToOpenai 0 "openai" "gpt-4o" emptyJson none none none none none none
        none none none [] "gpt-4o" none "gpt-4o").map
      GResponse.model = some (some ("openai" ++ "/" ++ "gpt-4o"))
    ∧ (transformResponseToOpenai 0 "openai" "gpt-4o" emptyJson none none none none none none
        none none none [] "gpt-4o" none "gpt-4o").map
      GResponse.metadata = some (some
        { requested_model := "gpt-4o"
          requested_provider := none
          used_model := "gpt-4o"
          used_provider := "openai"
          underlying_used_model := "gpt-4o" }) :=
  model_metadata_on_object_payload 0 "openai" "gpt-4o" emptyJson none none none none none none
    none none none [] "gpt-4o" none "gpt-4o" rfl

/-! ## C5 — getProviderEnv resolution -/

/-- Environment holding only the azure API key, not the azure resource. -/
def azureKeyOnlyEnv : Env :=
  fun v => if v = "LLM_AZURE_API_KEY" then some "azure-key" else none

/-- C5, counterexample: the claim says the token is returned whenever
the provider-specific variable is set and non-empty, but for `azure`
the source additionally demands `LLM_AZURE_RESOURCE`: with only the key
set, `getProviderEnv` throws 400 instead of returning the token. -/
theorem provider_env_azure_resource_cex :
    getProviderEnv azureKeyOnlyEnv "azure"
      = Except.error { status := 400
                       message := "LLM_AZURE_RESOURCE environment variable is required for Azure provider" } :=
  rfl

/-- C5, amended: `getProviderEnv` fails with an HTTP 400 exception when
the provider has no environment-variable name or the variable is unset
(the no-credential case never returns a token), and returns the value of
the provider-specific variable when it is set and non-empty — except
that for `azure` it additionally requires a truthy
`LLM_AZURE_RESOURCE`. -/
theorem provider_env_token_resolution (env : Env) (p v t : String) :
    (getProviderEnvVar p = none →
      getProviderEnv env p
        = Except.error { status := 400
                         message := "No environment variable set for provider: " ++ p })
    ∧ (getProviderEnvVar p = some v → env v = none →
      getProviderEnv env p
        = Except.error { status := 400
                         message := "No API key set in environment for provider: " ++ p })
    ∧ (getProviderEnvVar p = some v → env v = some t → t ≠ "" →
      (p = "azure" → jsTruthyS (env "LLM_AZURE_RESOURCE") = true) →
      getProviderEnv env p = Except.ok t) := by
  refine ⟨?_, ?_, ?_⟩
  · intro hv
    simp [getProviderEnv, hv]
  · intro hv ht
    have h1 : jsTruthyS (env v) = false := by simp [jsTruthyS, ht]
    simp [getProviderEnv, hv, h1]
  · intro hv ht hne haz
    have h1 : jsTruthyS (env v) = true := by simp [jsTruthyS, ht, hne]
    by_cases hp : p = "azure"
    · subst hp
      have h2 := haz rfl
      simp [getProviderEnv, hv, h1, h2, ht]
      simp [jsTruthyS, hne]
    · simp [getProviderEnv, hv, h1, hp, ht]
      simp [jsTruthyS, hne]

/-- C5, witness: the resolution theorem instantiated three times — an
unknown provider has no variable name; `openai` with an empty
environment fails; `openai` with its key set gets the token back. -/
theorem provider_env_token_resolution_check :
    getProviderEnv (fun _ => none) "mistral"
      = Except.error { status := 400
                       message := "No environment variable set for provider: " ++ "mistral" }
    ∧ getProviderEnv (fun _ => none) "openai"
      = Except.error { status := 400
                       message := "No API key set in environment for provider: " ++ "openai" }
    ∧ getProviderEnv (fun v => if v = "LLM_OPENAI_API_KEY" then some "sk-1" else none) "openai"
      = Except.ok "sk-1" :=
  ⟨(provider_env_token_resolution (fun _ => none) "mistral" "" "").1 rfl,
   (provider_env_token_resolution (fun _ => none) "openai" "LLM_OPENAI_API_KEY" "").2.1 rfl rfl,
   (provider_env_token_resolution (fun v => if v = "LLM_OPENAI_API_KEY" then some "sk-1" else none)
      "openai" "LLM_OPENAI_API_KEY" "sk-1").2.2 rfl rfl (by decide)
      (fun hp => by simp at hp)⟩

/-! ## C6 — azure environment requirements -/

/-- Environment with the azure key and resource set but no
`LLM_AZURE_API_VERSION`. -/
def azureNoVersionEnv : Env :=
  fun v => if v = "LLM_AZURE_API_KEY" then some "azure-key"
    else if v = "LLM_AZURE_RESOURCE" then some "my-resource" else none

/-- C6, counterexample: the claim says resolving the azure credential
fails unless `LLM_AZURE_API_VERSION` is also set, but `getProviderEnv`
never consults that variable: with only the key and the resource set it
returns the key. -/
theorem azure_api_version_not_required_cex :
    getProviderEnv azureNoVersionEnv "azure" = Except.ok "azure-key"
    ∧ azureNoVersionEnv "LLM_AZURE_API_VERSION" = none :=
  ⟨rfl, rfl⟩

/-- C6, amended: for the azure provider, `getProviderEnv` fails unless
`LLM_AZURE_RESOURCE` is set (truthy) in addition to the provider API
key — `LLM_AZURE_API_VERSION` is not checked — and with the key and the
resource set it returns the API key. -/
theorem azure_env_requirements (env : Env) (t : String)
    (hk : env "LLM_AZURE_API_KEY" = some t) (ht : t ≠ "") :
    (jsTruthyS (env "LLM_AZURE_RESOURCE") = false →
      getProviderEnv env "azure"
        = Except.error { status := 400
                         message := "LLM_AZURE_RESOURCE environment variable is required for Azure provider" })
    ∧ (jsTruthyS (env "LLM_AZURE_RESOURCE") = true →
      getProviderEnv env "azure" = Except.ok t) := by
  have h1 : jsTruthyS (env "LLM_AZURE_API_KEY") = true := by simp [jsTruthyS, hk, ht]
  constructor
  · intro hres
    simp [getProviderEnv, getProviderEnvVar, h1, hres, hk]
    simp [jsTruthyS, ht]
  · intro hres
    simp [getProviderEnv, getProviderEnvVar, h1, hres, hk]
    simp [jsTruthyS, ht]

/-- C6, witness: the azure requirement theorem applied to an environment
with the key set, once without and once with the resource. -/
theorem azure_env_requirements_check :
    getProviderEnv azureKeyOnlyEnv "azure"
      = Except.error { status := 400
                       message := "LLM_AZURE_RESOURCE environment variable is required for Azure provider" }
    ∧ getProviderEnv azureNoVersionEnv "azure" = Except.ok "azure-key" :=
  ⟨(azure_env_requirements azureKeyOnlyEnv "azure-key" rfl (by decide)).1 rfl,
   (azure_env_requirements azureNoVersionEnv "azure-key" rfl (by decide)).2 rfl⟩

/-! ## C7 — queue publish/consume round trip -/

/-- Redis state with every list empty. -/
def emptyRedis : RedisState :=
  { queues := fun _ => [] }

/-- C7: publishing stores the serialised message at the head of the
queue, and an immediately following consume returns a non-null batch of
at most 10 stored strings whose first element is the serialised message;
consuming an empty queue returns null. -/
theorem queue_publish_consume_roundtrip {α : Type} (stringify : α → String)
    (s : RedisState) (q : String) (m : α) :
    (∃ batch, (consumeFromQueue (publishToQueue stringify s q m) q).fst = some batch
      ∧ batch.head? = some (stringify m)
      ∧ batch.length ≤ 10
      ∧ ∀ x ∈ batch, x = stringify m ∨ x ∈ s.queues q)
    ∧ (s.queues q = [] → (consumeFromQueue s q).fst = none) := by
  constructor
  · refine ⟨(stringify m :: s.queues q).take 10, ?_, ?_, ?_, ?_⟩
    · simp [publishToQueue, consumeFromQueue]
    · rfl
    · exact List.length_take_le 10 _
    · intro x hx
      simpa using List.take_subset 10 _ hx
  · intro h
    simp [consumeFromQueue, h]

/-- C7, witness: the round-trip theorem applied to the empty redis state
with the identity serialisation, the consume-empty conjunct discharged
on the same state. -/
theorem queue_publish_consume_roundtrip_check :
    (∃ batch, (consumeFromQueue (publishToQueue (fun r => r) emptyRedis "log_queue_test" "rec")
        "log_queue_test").fst = some batch
      ∧ batch.head? = some "rec"
      ∧ batch.length ≤ 10
      ∧ ∀ x ∈ batch, x = "rec" ∨ x ∈ emptyRedis.queues "log_queue_test")
    ∧ (consumeFromQueue emptyRedis "log_queue_test").fst = none :=
  ⟨(queue_publish_consume_roundtrip (fun r => r) emptyRedis "log_queue_test" "rec").1,
   (queue_publish_consume_roundtrip (fun r => r) emptyRedis "log_queue_test" "rec").2 rfl⟩

/-! ## C9 — paystack webhook signature verification -/

/-- C9: with neither `PAYSTACK_WEBHOOK_SECRET` nor `PAYSTACK_SECRET_KEY`
set, `verifyPaystackSignature` returns true for every signature
(including a missing header) and every body, and the webhook gate then
processes the payload; with a (non-empty) secret resolved from either
variable, a missing signature header makes it return false. -/
theorem paystack_signature_verification (hmacSha512Hex : String → String → String)
    (sig : Option String) (body : String) (envWebhookSecret envSecretKey : Option String) :
    (verifyPaystackSignature hmacSha512Hex none none sig body = some true
      ∧ paystackWebhookAccepts hmacSha512Hex none none sig body = some true)
    ∧ ((∃ w, w ≠ ""
          ∧ (envWebhookSecret = some w ∨ (envWebhookSecret = none ∧ envSecretKey = some w))) →
      verifyPaystackSignature hmacSha512Hex envWebhookSecret envSecretKey none body = some false) := by
  constructor
  · exact ⟨rfl, rfl⟩
  · rintro ⟨w, hw, hcase | ⟨hwn, hsk⟩⟩
    · subst hcase
      simp [verifyPaystackSignature, jsTruthyS, hw]
    · subst hwn
      subst hsk
      simp [verifyPaystackSignature, jsTruthyS, hw]

/-- C9, witness: the verification theorem with no secret configured and
with a webhook secret `"whsec"` and a missing signature header. -/
theorem paystack_signature_verification_check :
    (verifyPaystackSignature (fun _ _ => "") none none (some "sig") "payload" = some true
      ∧ paystackWebhookAccepts (fun _ _ => "") none none (some "sig") "payload" = some true)
    ∧ verifyPaystackSignature (fun _ _ => "") (some "whsec") none none "payload" = some false :=
  ⟨(paystack_signature_verification (fun _ _ => "") (some "sig") "payload" (some "whsec") none).1,
   (paystack_signature_verification (fun _ _ => "") (some "sig") "payload" (some "whsec") none).2
     ⟨"whsec", by decide, Or.inl rfl⟩⟩

/-! ## C10 — admin gating -/

/-- Every entry of the parsed admin list is non-empty. -/
theorem adminEmailList_entries_nonempty (adminEmailsEnv : Option String) :
    ∀ x ∈ adminEmailList adminEmailsEnv, x ≠ "" := by
  intro x hx
  have := List.of_mem_filter hx
  simpa using this

/-- C10: admin gating fails closed — when every comma-separated part of
`ADMIN_EMAILS` (read as `""` when unset) trims to blank, `isAdminEmail`
is false for every email and the metrics handler answers 403 to every
authenticated user; otherwise `isAdminEmail` is true exactly when the
lowercased email appears among the trimmed, lowercased entries. -/
theorem admin_gating_fails_closed (adminEmailsEnv : Option String) (e : Option String) (s : String) :
    ((∀ part ∈ jsSplitComma (jsOrS adminEmailsEnv ""), jsTrim part = "") →
      isAdminEmail adminEmailsEnv e = false
      ∧ adminMetricsGate adminEmailsEnv (some e) = MetricsGate.forbidden)
    ∧ (adminEmailList adminEmailsEnv ≠ [] →
      isAdminEmail adminEmailsEnv (some s) = (adminEmailList adminEmailsEnv).contains (jsToLower s)) := by
  constructor
  · intro hblank
    have hnil : adminEmailList adminEmailsEnv = [] := by
      unfold adminEmailList
      rw [List.filter_eq_nil_iff]
      intro a ha
      simp only [List.mem_map] at ha
      obtain ⟨v, hv, rfl⟩ := ha
      simp [hblank v hv, jsToLower]
    refine ⟨?_, ?_⟩
    · simp [isAdminEmail, hnil]
    · simp [adminMetricsGate, isAdminEmail, hnil]
  · intro hne
    by_cases hs : s = ""
    · subst hs
      have hc : "" ∉ adminEmailList adminEmailsEnv :=
        fun hm => (adminEmailList_entries_nonempty adminEmailsEnv _ hm) rfl
      have hlow : jsToLower "" = "" := rfl
      simp [isAdminEmail, jsTruthyS, hlow, hc]
    · have h1 : jsTruthyS (some s) = true := by simp [jsTruthyS, hs]
      have h2 : ¬ (adminEmailList adminEmailsEnv).length = 0 := by
        simpa [List.length_eq_zero] using hne
      simp [isAdminEmail, h1, h2]

/-- C10, witness: the gating theorem at an `ADMIN_EMAILS` of blank
entries (everyone refused, gate 403) and at a two-entry list for both
directions of the membership test. -/
theorem admin_gating_fails_closed_check :
    (isAdminEmail (some " , ") (some "user@example.com") = false
      ∧ adminMetricsGate (some " , ") (some (some "user@example.com")) = MetricsGate.forbidden)
    ∧ isAdminEmail (some "A@B.com, d@e.fr") (some "a@b.COM")
        = (adminEmailList (some "A@B.com, d@e.fr")).contains (jsToLower "a@b.COM") :=
  ⟨(admin_gating_fails_closed (some " , ") (some "user@example.com") "x").1 (by decide),
   (admin_gating_fails_closed (some "A@B.com, d@e.fr") none "a@b.COM").2 (by decide)⟩

/-! ## C8 — idempotent paystack charge recording -/

/-- After the guarded transaction update, no row matches the guard any
more: every matched row now has status `completed`. -/
theorem filter_after_update (p : SuccessfulChargeParams) (l : List TransactionRow) :
    (l.map (updateMatchedTx p)).filter (txMatches p.transactionId) = [] := by
  rw [List.filter_eq_nil_iff]
  intro t ht
  simp only [List.mem_map] at ht
  obtain ⟨t0, _, rfl⟩ := ht
  by_cases h : txMatches p.transactionId t0 = true
  · have hc : t0.id = p.transactionId ∧ ¬ t0.status = "completed" := by
      simpa [txMatches] using h
    simp [updateMatchedTx, txMatches, hc.1, hc.2]
  · simp [updateMatchedTx, h]

/-- Credits read back through `find?` after the per-row credit update:
the first row with the organization's id gained exactly
`creditAmount`. -/
theorem find_map_creditOrg (p : SuccessfulChargeParams) (l : List OrgRow) :
    ((l.map (creditOrg p)).find? (fun o => o.id == p.organizationId)).map OrgRow.credits
    = ((l.find? (fun o => o.id == p.organizationId)).map OrgRow.credits).map
        (fun c => c + p.creditAmount) := by
  induction l with
  | nil => rfl
  | cons o l ih =>
    by_cases h : (o.id == p.organizationId) = true
    · have hpa : ((creditOrg p o).id == p.organizationId) = true := by
        simp [creditOrg, h]
      rw [List.map_cons,
        List.find?_cons_of_pos (p := fun x : OrgRow => x.id == p.organizationId) _ hpa,
        List.find?_cons_of_pos (p := fun x : OrgRow => x.id == p.organizationId) _ h]
      simp [creditOrg, h]
    · have hpa : ¬ ((creditOrg p o).id == p.organizationId) = true := by
        simp [creditOrg, h]
      rw [List.map_cons,
        List.find?_cons_of_neg (p := fun x : OrgRow => x.id == p.organizationId) _ hpa,
        List.find?_cons_of_neg (p := fun x : OrgRow => x.id == p.organizationId) _ h]
      exact ih

/-- Shape of a recording that found a pending transaction: the guarded
update and the credit update are applied whatever the payment-method
sub-branches do. -/
theorem record_shape (now : Int) (newId : String) (p : SuccessfulChargeParams) (s : DBState)
    (h : ¬ (s.transactions.filter (txMatches p.transactionId)).length = 0) :
    ∃ pms, recordSuccessfulPaystackCharge now newId p s =
      { transactions := s.transactions.map (updateMatchedTx p)
        organizations := s.organizations.map (creditOrg p)
        paymentMethods := pms } := by
  simp only [recordSuccessfulPaystackCharge]
  rw [if_neg h]
  split
  · split
    · exact ⟨_, rfl⟩
    · exact ⟨_, rfl⟩
  · exact ⟨_, rfl⟩

/-- C8: the second identical recording is a no-op on the whole database
state, and when a pending transaction with the given id exists the
organization's credits grow by `creditAmount` exactly once across the
two runs. -/
theorem paystack_charge_idempotent (n1 n2 : Int) (i1 i2 : String)
    (p : SuccessfulChargeParams) (s : DBState) :
    recordSuccessfulPaystackCharge n2 i2 p (recordSuccessfulPaystackCharge n1 i1 p s)
      = recordSuccessfulPaystackCharge n1 i1 p s
    ∧ ((∃ t ∈ s.transactions, t.id = p.transactionId ∧ t.status ≠ "completed") →
      orgCredits (recordSuccessfulPaystackCharge n2 i2 p (recordSuccessfulPaystackCharge n1 i1 p s))
          p.organizationId
        = (orgCredits s p.organizationId).map (fun c => c + p.creditAmount)) := by
  have erec : ∀ (n : Int) (i : String) (s' : DBState),
      (s'.transactions.filter (txMatches p.transactionId)).length = 0 →
      recordSuccessfulPaystackCharge n i p s' = s' := by
    intro n i s' hh
    unfold recordSuccessfulPaystackCharge
    rw [if_pos hh]
  by_cases h0 : (s.transactions.filter (txMatches p.transactionId)).length = 0
  · have e1 : recordSuccessfulPaystackCharge n1 i1 p s = s := erec n1 i1 s h0
    constructor
    · rw [e1]
      exact erec n2 i2 s h0
    · rintro ⟨t, hmem, hid, hst⟩
      exfalso
      have hmt : txMatches p.transactionId t = true := by
        simp [txMatches, hid, hst]
      have hmem2 : t ∈ s.transactions.filter (txMatches p.transactionId) :=
        List.mem_filter.mpr ⟨hmem, hmt⟩
      rw [List.length_eq_zero] at h0
      rw [h0] at hmem2
      simp at hmem2
  · obtain ⟨pms, hshape⟩ := record_shape n1 i1 p s h0
    have hfil : ((recordSuccessfulPaystackCharge n1 i1 p s).transactions.filter
        (txMatches p.transactionId)).length = 0 := by
      rw [hshape]
      simp [filter_after_update]
    have e2 : recordSuccessfulPaystackCharge n2 i2 p (recordSuccessfulPaystackCharge n1 i1 p s)
        = recordSuccessfulPaystackCharge n1 i1 p s :=
      erec n2 i2 _ hfil
    refine ⟨e2, fun _ => ?_⟩
    rw [e2, hshape]
    exact find_map_creditOrg p s.organizations

/-- Pending credit top-up transaction row. -/
def pendingTx : TransactionRow :=
  { id := "tx-1"
    status := "pending"
    amount := "0"
    creditAmount := "0"
    currency := "USD"
    paystackReference := none
    provider := none }

/-- Database state with one pending transaction and one organization. -/
def chargeState : DBState :=
  { transactions := [pendingTx]
    organizations := [{ id := "org-1", credits := 5 }]
    paymentMethods := [] }

/-- Parameters of a successful charge webhook for `chargeState`. -/
def chargeParams : SuccessfulChargeParams :=
  { organizationId := "org-1"
    transactionId := "tx-1"
    amountPaid := 10
    creditAmount := 9
    currency := "USD"
    reference := "ref-1"
    authorization := some
      { authorization_code := some "AUTH"
        last4 := some "4242"
        channel := none
        card_type := some "visa"
        bank := none
        brand := none }
    metadata := { savePaymentMethod := some true, makeDefault := some true } }

/-- C8, witness: the idempotence theorem applied to a concrete state
with one pending transaction, the existence hypothesis discharged on
that row. -/
theorem paystack_charge_idempotent_check :
    recordSuccessfulPaystackCharge 8 "pm-2" chargeParams
        (recordSuccessfulPaystackCharge 7 "pm-1" chargeParams chargeState)
      = recordSuccessfulPaystackCharge 7 "pm-1" chargeParams chargeState
    ∧ orgCredits (recordSuccessfulPaystackCharge 8 "pm-2" chargeParams
        (recordSuccessfulPaystackCharge 7 "pm-1" chargeParams chargeState))
        chargeParams.organizationId
      = (orgCredits chargeState chargeParams.organizationId).map
          (fun c => c + chargeParams.creditAmount) :=
  ⟨(paystack_charge_idempotent 7 8 "pm-1" "pm-2" chargeParams chargeState).1,
   (paystack_charge_idempotent 7 8 "pm-1" "pm-2" chargeParams chargeState).2
     ⟨pendingTx, by decide, rfl, by decide⟩⟩
